import Mathlib

/-!
Verification of the ngtools viewer (src/ngtools/viewer.py) against its
natural-language specification.

The Python source is shallowly embedded: the viewer state, the coordinate
spaces and transforms, and the command methods (display, transform, layout,
unload, load, state) become executable Lean functions.  Machine floats are
modelled by exact rationals; numpy reshape, matrix inversion and integer
square root are modelled by exact counterparts that agree with the floating
implementations on the inputs at issue.  Externals of the repository that are
not under src (the axis alias table, the named-transform table, compose and
to_square of ngtools.spaces, the description provider, the file system and
the per-file source loaders) are modelled from the specification or passed
as oracle parameters; each such definition carries a doc comment saying so.
-/

set_option maxRecDepth 8000

namespace NgViewer

/-- Python exceptions that the embedded commands can raise. -/
inductive Err where
  | valueError (msg : String)
  | typeError (msg : String)
  | keyError (msg : String)
  | attributeError (msg : String)
  | indexError (msg : String)
  | linAlgError (msg : String)
  | fileNotFoundError (msg : String)
  deriving DecidableEq, Repr

/-- A coordinate space: the ordered axis names (units and scales carried by
the real neuroglancer object play no role in the embedded logic). -/
structure CoordinateSpace where
  names : List String
  deriving DecidableEq, Repr

/-- ng.CoordinateSpaceTransform: optional matrix (rows of rationals) plus
optional input and output coordinate spaces; a Python None field is none. -/
structure Transform where
  matrix : Option (List (List ℚ))
  inputDimensions : Option CoordinateSpace
  outputDimensions : Option CoordinateSpace
  deriving DecidableEq, Repr

/-- A data source of a layer.  isLocalVolume models isinstance(source,
ng.LocalVolume); url is the locator handed to the description provider. -/
structure Source where
  transform : Option Transform
  dimensions : Option CoordinateSpace
  isLocalVolume : Bool
  url : String
  deriving DecidableEq, Repr

/-- A named layer; isImage models isinstance(layer, ng.ImageLayer). -/
structure Layer where
  name : String
  isImage : Bool
  sources : List Source
  deriving DecidableEq, Repr

/-- The layout tree.  leaf is a plain string layout such as xy; stack is
ng.StackLayout; group is ng.LayerGroupViewer; pylist models a raw Python
list value held by the layout variable of the layout method. -/
inductive LayoutNode where
  | leaf (kind : String)
  | stack (dir : String) (children : List LayoutNode)
  | group (layers : List String) (child : LayoutNode) (flex : ℚ)
  | pylist (items : List LayoutNode)

/-- The committed viewer state: layers, displayDimensions, layout tree. -/
structure ViewerState where
  layers : List Layer
  displayDimensions : Option (List String)
  layout : LayoutNode

/-- The LocalNeuroglancer session: the committed state plus the mutable
self.display_dimensions field (None after redisplay(None)). -/
structure Session where
  state : ViewerState
  display_dimensions : Option (List String)

/-! ## Matrix utilities (numpy modelled over exact rationals) -/

/-- Dot product of two rows. -/
def dot (a b : List ℚ) : ℚ := (List.zipWith (fun x y => x * y) a b).sum

/-- Column j of a matrix (missing entries read as 0). -/
def getCol (m : List (List ℚ)) (j : Nat) : List ℚ := m.map (fun r => r.getD j 0)

/-- Matrix product of row-major matrices. -/
def matMul (a b : List (List ℚ)) : List (List ℚ) :=
  a.map (fun row => (List.range (b.headD []).length).map (fun j => dot row (getCol b j)))

/-- Identity matrix np.eye(n). -/
def eye (n : Nat) : List (List ℚ) :=
  (List.range n).map (fun i => (List.range n).map (fun j => if i = j then (1 : ℚ) else 0))

/-- Determinant by Laplace expansion along the first row; the Nat fuel makes
the recursion structural (fuel = row count suffices). -/
def detFuel : Nat → List (List ℚ) → ℚ
  | 0, _ => 1
  | _ + 1, [] => 1
  | f + 1, r :: rest =>
    ((List.range r.length).map (fun j =>
      (if j % 2 = 0 then (1 : ℚ) else -1) * r.getD j 0 *
        detFuel f (rest.map (fun row => row.take j ++ row.drop (j + 1))))).sum

/-- Determinant of a square matrix given as rows. -/
def det (m : List (List ℚ)) : ℚ := detFuel m.length m

/-- np.linalg.inv: fails (LinAlgError) exactly on a singular matrix, else
returns the adjugate divided by the determinant.  Exact-rational model of
the floating routine. -/
def npinv (m : List (List ℚ)) : Option (List (List ℚ)) :=
  let n := m.length
  let d := det m
  if d = 0 then none
  else
    some ((List.range n).map (fun i => (List.range n).map (fun j =>
      ((if (i + j) % 2 = 0 then (1 : ℚ) else -1) *
        det ((m.eraseIdx j).map (fun row => row.eraseIdx i))) / d)))

/-- Modelled from the spec: to_square of ngtools.spaces (not under src).
Square the matrix by appending the canonical homogeneous bottom row
0, ..., 0, 1 if it is not already square. -/
def to_square (m : List (List ℚ)) : List (List ℚ) :=
  let cols := (m.headD []).length
  if m.length = cols then m
  else m ++ [(List.range cols).map (fun j => if j = cols - 1 then (1 : ℚ) else 0)]

/-- Integer square root, structural in its argument.  Models
int(np.sqrt(x).item()): exact for the perfect squares that decide the
reshape branch, and the truncation of the float square root elsewhere. -/
def isqrt : Nat → Nat
  | 0 => 0
  | n + 1 =>
    let r := isqrt n
    if (r + 1) * (r + 1) ≤ n + 1 then r + 1 else r

/-- np.reshape of a flat vector to r rows by c columns; numpy raises a
ValueError when the element count does not match, modelled by none. -/
def npReshape (t : List ℚ) (r c : Nat) : Option (List (List ℚ)) :=
  if t.length = r * c then
    some ((List.range r).map (fun i => (List.range c).map (fun j => t.getD (i * c + j) 0)))
  else none

/-- The flat-matrix normalisation of LocalNeuroglancer.transform
(viewer.py lines 535-542): length 12 becomes 3 by 4, length 16 becomes
4 by 4, otherwise n = int(np.sqrt(1 + 4 k)) // 2 and the vector is
reshaped to n by (n + 1), failing when n (n + 1) differs from k. -/
def reshapeFlat (t : List ℚ) : Option (List (List ℚ)) :=
  if t.length = 12 then npReshape t 3 4
  else if t.length = 16 then npReshape t 4 4
  else
    let n := isqrt (1 + 4 * t.length) / 2
    npReshape t n (n + 1)

/-- Shape of a row-major matrix: row count and the list of row lengths. -/
def shapeOf (m : List (List ℚ)) : Nat × List Nat := (m.length, m.map List.length)

lemma npReshape_shape (t : List ℚ) (r c : Nat) (h : t.length = r * c) :
    Option.map shapeOf (npReshape t r c) = some (r, List.replicate r c) := by
  unfold npReshape
  rw [if_pos h]
  unfold shapeOf
  refine congrArg some (Prod.ext ?_ ?_)
  · simp
  · show ((List.range r).map fun i => (List.range c).map fun j => t.getD (i * c + j) 0).map
        List.length = List.replicate r c
    rw [List.map_map,
      show (List.length ∘ fun i => (List.range c).map fun j => t.getD (i * c + j) 0)
          = fun _ : Nat => c from funext (fun i => by simp),
      List.map_const', List.length_range]

/-- C1 counterexample: a flat vector of length 20 is reshaped to a 4 by 5
matrix without any validation error, because n = 4 does solve
n (n + 1) = 20; the claim says length 20 fails validation. -/
theorem C1_counterexample :
    Option.map shapeOf (reshapeFlat (List.replicate 20 (0 : ℚ)))
      = some (4, List.replicate 4 5) := by
  decide

/-- C1 amended: length 12 reshapes to 3 by 4, length 16 to 4 by 4, length 6
to 2 by 3, length 20 to 4 by 5 (n = 4 solves n (n + 1) = 20); a flat length
other than 12 and 16 for which no integer n solves n (n + 1) = k fails
validation with an error. -/
theorem C1_reshape_amended :
    (∀ t : List ℚ, t.length = 12 →
        Option.map shapeOf (reshapeFlat t) = some (3, List.replicate 3 4))
    ∧ (∀ t : List ℚ, t.length = 16 →
        Option.map shapeOf (reshapeFlat t) = some (4, List.replicate 4 4))
    ∧ (∀ t : List ℚ, t.length = 6 →
        Option.map shapeOf (reshapeFlat t) = some (2, List.replicate 2 3))
    ∧ (∀ t : List ℚ, t.length = 20 →
        Option.map shapeOf (reshapeFlat t) = some (4, List.replicate 4 5))
    ∧ (∀ t : List ℚ, t.length ≠ 12 → t.length ≠ 16 →
        (∀ n : Nat, n * (n + 1) ≠ t.length) → reshapeFlat t = none) := by
  refine ⟨?_, ?_, ?_, ?_, ?_⟩
  · intro t h
    unfold reshapeFlat
    rw [if_pos h]
    exact npReshape_shape t 3 4 (by omega)
  · intro t h
    unfold reshapeFlat
    rw [if_neg (by omega : ¬ t.length = 12), if_pos h]
    exact npReshape_shape t 4 4 (by omega)
  · intro t h
    unfold reshapeFlat
    rw [if_neg (by omega : ¬ t.length = 12), if_neg (by omega : ¬ t.length = 16)]
    show Option.map shapeOf (npReshape t (isqrt (1 + 4 * t.length) / 2)
      (isqrt (1 + 4 * t.length) / 2 + 1)) = some (2, List.replicate 2 3)
    rw [h, show isqrt (1 + 4 * 6) / 2 = 2 by decide]
    exact npReshape_shape t 2 3 (by omega)
  · intro t h
    unfold reshapeFlat
    rw [if_neg (by omega : ¬ t.length = 12), if_neg (by omega : ¬ t.length = 16)]
    show Option.map shapeOf (npReshape t (isqrt (1 + 4 * t.length) / 2)
      (isqrt (1 + 4 * t.length) / 2 + 1)) = some (4, List.replicate 4 5)
    rw [h, show isqrt (1 + 4 * 20) / 2 = 4 by decide]
    exact npReshape_shape t 4 5 (by omega)
  · intro t h12 h16 hno
    unfold reshapeFlat
    rw [if_neg h12, if_neg h16]
    show npReshape t (isqrt (1 + 4 * t.length) / 2) (isqrt (1 + 4 * t.length) / 2 + 1) = none
    unfold npReshape
    rw [if_neg (fun h => hno _ h.symm)]

/-- C1 amended, witnessed at concrete inputs: each hypothesis of the amended
theorem discharged at an explicit flat vector. -/
theorem C1_reshape_amended_witness :
    Option.map shapeOf (reshapeFlat (List.replicate 12 (0 : ℚ))) = some (3, List.replicate 3 4)
    ∧ Option.map shapeOf (reshapeFlat (List.replicate 16 (0 : ℚ))) = some (4, List.replicate 4 4)
    ∧ Option.map shapeOf (reshapeFlat (List.replicate 6 (0 : ℚ))) = some (2, List.replicate 2 3)
    ∧ reshapeFlat [0, 0, 0, 0, 0] = none :=
  ⟨C1_reshape_amended.1 _ (by decide),
   C1_reshape_amended.2.1 _ (by decide),
   C1_reshape_amended.2.2.1 _ (by decide),
   C1_reshape_amended.2.2.2.2 [0, 0, 0, 0, 0] (by decide) (by decide)
     (by intro n h; rcases n with _ | _ | m
         · simp at h
         · simp at h
         · simp only [List.length_cons, List.length_nil] at h; nlinarith)⟩

/-! ## Axis naming -/

/-- ASCII lower-casing of a character, as str.lower applies to the axis
letters in play. -/
def chLower (c : Char) : Char :=
  if 65 ≤ c.toNat ∧ c.toNat ≤ 90 then Char.ofNat (c.toNat + 32) else c

/-- str.lower on a whole token. -/
def pyLower (s : String) : String := String.mk (s.data.map chLower)

/-- Modelled from the spec: the axis alias table letter2full of
ngtools.spaces (not under src).  It maps short axis letters to the full
canonical orientation names; unknown tokens are not in the table, so the
lookup with default leaves them unchanged. -/
def letter2full (t : String) : Option String :=
  if t = "r" then some "right"
  else if t = "l" then some "left"
  else if t = "a" then some "anterior"
  else if t = "p" then some "posterior"
  else if t = "s" then some "superior"
  else if t = "i" then some "inferior"
  else none

/-- letter2full.get(letter.lower(), letter): case-insensitive lookup with
pass-through of unknown tokens. -/
def resolveToken (t : String) : String := (letter2full (pyLower t)).getD t

/-- compactNames of LocalNeuroglancer.display (lines 310-313): first letter
of each name, lower-cased, dropping channel and time letters c and t. -/
def compactNames (names : List String) : String :=
  String.mk (((names.filterMap (fun n => n.data.head?)).map chLower).filter
    (fun c => ¬(c = 'c' ∨ c = 't')))

/-- Anatomical axis letters grouped by axis: right/left, anterior/posterior,
superior/inferior. -/
def axisClass (c : Char) : Nat :=
  if c = 'r' ∨ c = 'l' then 0
  else if c = 'a' ∨ c = 'p' then 1
  else if c = 's' ∨ c = 'i' then 2
  else 3

/-- Full name of an anatomical axis letter. -/
def letterFull (c : Char) : String :=
  if c = 'r' then "right"
  else if c = 'l' then "left"
  else if c = 'a' then "anterior"
  else if c = 'p' then "posterior"
  else if c = 's' then "superior"
  else if c = 'i' then "inferior"
  else String.mk [c]

/-- A compact string names a supported 3-axis anatomical ordering when it
has one letter from each of the three axis pairs. -/
def isOrientation (s : String) : Bool :=
  s.length = 3 ∧ (s.data.map axisClass).contains 0
    ∧ (s.data.map axisClass).contains 1 ∧ (s.data.map axisClass).contains 2

/-- Modelled from the spec: the named-transform table neurotransforms of
ngtools.spaces (not under src), keyed by a pair of compact axis orderings
and yielding the signed-permutation reorientation transform between the two
supported orderings; a key outside the table is a KeyError at the call
site, modelled by none. -/
def neurotransforms (f t : String) : Option Transform :=
  if isOrientation f ∧ isOrientation t then
    some
      { matrix := some ((List.range 3).map (fun i =>
          ((List.range 3).map (fun j =>
            match t.data.get? i, f.data.get? j with
            | some ci, some cj =>
              if axisClass ci = axisClass cj then (if ci = cj then (1 : ℚ) else -1) else 0
            | _, _ => 0)) ++ [0])),
        inputDimensions := some ⟨f.data.map letterFull⟩,
        outputDimensions := some ⟨t.data.map letterFull⟩ }
  else none

/-- Modelled from the spec: compose of ngtools.spaces (not under src).
The composite matrix is the new matrix times the homogeneous-augmented
existing matrix; an absent existing matrix acts as the identity over its
declared spaces; the output space comes from the new transform and the
input space from the existing one. -/
def compose (tNew tExist : Transform) : Transform :=
  let nE := (tExist.outputDimensions.map (fun d => d.names.length)).getD 3
  let mE := tExist.matrix.getD (eye (nE + 1))
  let nN := (tNew.outputDimensions.map (fun d => d.names.length)).getD 3
  let mN := tNew.matrix.getD (eye (nN + 1))
  { matrix := some (matMul mN (to_square mE)),
    inputDimensions := tExist.inputDimensions,
    outputDimensions := tNew.outputDimensions }

/-! ## The transform resolver (getDimensions / getTransform) -/

/-- getTransform of display and transform (lines 329-336 and 577-584): the
transform carried by the source, else, for a non-local source, the one on a
fresh description of the same data from the external provider. -/
def getTransform (provider : String → Source) (source : Source) : Option Transform :=
  match source.transform with
  | some t => some t
  | none =>
    if source.isLocalVolume then none
    else
      match (provider source.url).transform with
      | some t => some t
      | none => none

/-- The direct part of getDimensions (lines 318-323 and 566-571): the input
dimensions of the transform carried by the source when set, else the
dimensions of the source itself. -/
def directDims (source : Source) : Option CoordinateSpace :=
  match (match source.transform with
         | some t => t.inputDimensions
         | none => none) with
  | some d => some d
  | none => source.dimensions

/-- getDimensions (lines 317-327 and 565-575) with the hidden _reentrant
flag made an explicit remaining-hop count: the direct dimensions when
found, else, when hops remain and the source is not local, one recursive
lookup on the description returned by the external provider, else
unknown. -/
def getDimensionsFuel (provider : String → Source) : Nat → Source → Option CoordinateSpace
  | 0, source => directDims source
  | f + 1, source =>
    match directDims source with
    | some d => some d
    | none =>
      if source.isLocalVolume then none
      else getDimensionsFuel provider f (provider source.url)

/-- getDimensions with the original Boolean guard: a reentrant call has no
remaining hops. -/
def getDimensions (provider : String → Source) (source : Source) (reentrant : Bool) :
    Option CoordinateSpace :=
  getDimensionsFuel provider (if reentrant then 0 else 1) source

/-- Number of lookups into the external description provider performed by
getDimensionsFuel on the same control path. -/
def getDimensionsLookups (provider : String → Source) : Nat → Source → Nat
  | 0, _ => 0
  | f + 1, source =>
    match directDims source with
    | some _ => 0
    | none =>
      if source.isLocalVolume then 0
      else 1 + getDimensionsLookups provider f (provider source.url)

lemma getDimensionsLookups_le (provider : String → Source) :
    ∀ fuel source, getDimensionsLookups provider fuel source ≤ fuel := by
  intro fuel
  induction fuel with
  | zero => intro source; simp [getDimensionsLookups]
  | succ f ih =>
    intro source
    unfold getDimensionsLookups
    rcases directDims source with _ | d
    · simp only
      by_cases hl : source.isLocalVolume <;> simp [hl]
      have := ih (provider source.url)
      omega
    · simp

/-! ## The display command -/

/-- The axis canonicalisation prefix of display (lines 300-308): a single
token is expanded letter by letter; exactly three names are required
(ValueError otherwise, raised before any state is touched); each token then
resolves through the alias table.  The result none means an empty argument,
which keeps the previously stored order. -/
def canonDims (dimension : List String) : Except Err (Option (List String)) :=
  if dimension.isEmpty then .ok none
  else
    let ds := if dimension.length = 1
      then (dimension.headD "").data.map (fun c => String.mk [c])
      else dimension
    if ds.length = 3 then .ok (some (ds.map resolveToken))
    else .error (.valueError "display takes three axis names")

/-- reorientUsingTransform (lines 338-356): skip when every requested
compact letter already appears among the compact output axes of the
existing transform, else compose the named reorientation transform on top
of the existing transform rebuilt over its own input. -/
def reorientUsingTransform (provider : String → Source) (names : String) (source : Source) :
    Except Err Source :=
  match getTransform provider source with
  | none => .error (.attributeError "matrix")
  | some transform =>
    let idims := getDimensions provider source false
    let matrix := transform.matrix.getD (eye 4)
    match transform.outputDimensions with
    | none => .error (.attributeError "names")
    | some odims =>
      let onames := compactNames odims.names
      if names.data.all (fun c => onames.data.contains c) then .ok source
      else
        match neurotransforms onames names with
        | none => .error (.keyError "neurotransforms")
        | some t =>
          .ok { source with transform := some (compose t ⟨some matrix, idims, some odims⟩) }

/-- reorientUsingDimensions (lines 358-371): nothing to do when the
dimensions are unknown; skip when every requested compact letter already
appears among the compact native axes; else set the composed reorientation
transform over the identity on the native dimensions. -/
def reorientUsingDimensions (provider : String → Source) (names : String) (source : Source) :
    Except Err Source :=
  match getDimensions provider source false with
  | none => .ok source
  | some idims =>
    let inames := compactNames idims.names
    if names.data.all (fun c => inames.data.contains c) then .ok source
    else
      match neurotransforms inames names with
      | none => .error (.keyError "neurotransforms")
      | some t =>
        .ok { source with transform := some (compose t ⟨none, some idims, some idims⟩) }

/-- The per-source step of the display transaction (lines 377-381). -/
def processSource (provider : String → Source) (names : String) (source : Source) :
    Except Err Source :=
  if (getTransform provider source).isSome then reorientUsingTransform provider names source
  else reorientUsingDimensions provider names source

/-- The per-layer step of the display transaction (lines 374-381): only
image layers are touched. -/
def processLayer (provider : String → Source) (names : String) (l : Layer) :
    Except Err Layer :=
  if l.isImage then
    (l.sources.mapM (processSource provider names)).map (fun ss => { l with sources := ss })
  else .ok l

/-- redisplay (lines 385-398): an argument of some v assigns
self.display_dimensions := v (v itself may be none, as in load); the
state displayDimensions is then committed in its own transaction.  Returns
the new session and the committed snapshot. -/
def redisplayCmd (sess : Session) (arg : Option (Option (List String))) :
    Session × ViewerState :=
  let dd := match arg with
    | some v => v
    | none => sess.display_dimensions
  let st := { sess.state with displayDimensions := dd }
  (⟨st, dd⟩, st)

/-- The display command (lines 279-383): canonicalise the requested axes
(ValueError before any change when not exactly three), store them in
self.display_dimensions, reorient every image source inside one
transaction, then commit displayDimensions in a second transaction via
redisplay.  The result carries the outcome, the final session, and the list
of committed snapshots in order. -/
def displayCmd (provider : String → Source) (sess : Session) (dimension : List String) :
    Except Err Unit × Session × List ViewerState :=
  match canonDims dimension with
  | .error e => (.error e, sess, [])
  | .ok dopt =>
    let dd1 : Option (List String) := match dopt with
      | some d => some d
      | none => sess.display_dimensions
    let sess1 : Session := { sess with display_dimensions := dd1 }
    match dd1 with
    | none => (.error (.typeError "NoneType is not iterable"), sess1, [])
    | some ddl =>
      let names := compactNames ddl
      match sess1.state.layers.mapM (processLayer provider names) with
      | .error e => (.error e, sess1, [])
      | .ok newLayers =>
        let st1 := { sess1.state with layers := newLayers }
        let st2 := { st1 with displayDimensions := dd1 }
        (.ok (), ⟨st2, dd1⟩, [st1, st2])

/-! ## Claim C2: display on a source with native dims and no transform -/

/-- A provider whose descriptions carry no metadata (never consulted for a
local source). -/
def provBare : String → Source := fun _ => ⟨none, none, true, ""⟩

/-- A local source with native dimensions x, y, z and no transform. -/
def srcXYZ : Source := ⟨none, some ⟨["x", "y", "z"]⟩, true, "local"⟩

/-- A session holding one image layer over srcXYZ, stored order x, y, z. -/
def sessC2 : Session :=
  ⟨⟨[⟨"layer0", true, [srcXYZ]⟩], some ["x", "y", "z"], .leaf "xy"⟩, some ["x", "y", "z"]⟩

/-- The transform of the first source of the first layer. -/
def firstSourceTransform (st : ViewerState) : Option Transform :=
  ((st.layers.headD ⟨"", false, []⟩).sources.headD ⟨none, none, true, ""⟩).transform

/-- C2 counterexample: display with z, y, x on a source whose native
dimensions are x, y, z sets no transform at all — every requested letter is
already among the native compact letters, so the subset check returns
early — while the claim says a new transform with compact output zyx is
set.  The committed displayDimensions does equal the stored order. -/
theorem C2_counterexample :
    (displayCmd provBare sessC2 ["z", "y", "x"]).1 = .ok ()
    ∧ firstSourceTransform (displayCmd provBare sessC2 ["z", "y", "x"]).2.1.state = none
    ∧ (displayCmd provBare sessC2 ["z", "y", "x"]).2.1.state.displayDimensions
        = some ["z", "y", "x"] :=
  ⟨rfl, rfl, rfl⟩

/-- Helper: a transformless local source whose native dimensions already
contain every requested compact letter is returned unchanged by the
per-source display step. -/
lemma processSource_subset (provider : String → Source) (names : String)
    (d : CoordinateSpace) (u : String)
    (hsub : names.data.all (fun c => (compactNames d.names).data.contains c) = true) :
    processSource provider names ⟨none, some d, true, u⟩ = .ok ⟨none, some d, true, u⟩ := by
  have h1 : getTransform provider ⟨none, some d, true, u⟩ = none := rfl
  have h2 : getDimensions provider ⟨none, some d, true, u⟩ false = some d := rfl
  unfold processSource
  rw [h1]
  simp only [Option.isSome_none, Bool.false_eq_true, if_false]
  unfold reorientUsingDimensions
  rw [h2]
  simp only []
  rw [hsub]
  simp

/-- C2 amended: display with z, y, x on a Source with native dimensions
containing the letters z, y, x (for instance x, y, z) and no transform
leaves the Source without any transform — the subset check skips
reorientation for pure permutations — and commits displayDimensions equal
to the stored order z, y, x, in a second transaction. -/
theorem C2_display_amended (provider : String → Source) (d : CoordinateSpace)
    (u nm : String) (vdd dd0 : Option (List String)) (lay : LayoutNode)
    (hsub : ("zyx".data.all (fun c => (compactNames d.names).data.contains c)) = true) :
    displayCmd provider ⟨⟨[⟨nm, true, [⟨none, some d, true, u⟩]⟩], vdd, lay⟩, dd0⟩
        ["z", "y", "x"]
      = (.ok (),
         ⟨⟨[⟨nm, true, [⟨none, some d, true, u⟩]⟩], some ["z", "y", "x"], lay⟩,
          some ["z", "y", "x"]⟩,
         [⟨[⟨nm, true, [⟨none, some d, true, u⟩]⟩], vdd, lay⟩,
          ⟨[⟨nm, true, [⟨none, some d, true, u⟩]⟩], some ["z", "y", "x"], lay⟩]) := by
  have hc : canonDims ["z", "y", "x"] = .ok (some ["z", "y", "x"]) := rfl
  have hn : compactNames ["z", "y", "x"] = "zyx" := rfl
  have hp := processSource_subset provider "zyx" d u hsub
  have hmap : (List.mapM (processLayer provider "zyx")
        ([⟨nm, true, [⟨none, some d, true, u⟩]⟩] : List Layer))
      = .ok [⟨nm, true, [⟨none, some d, true, u⟩]⟩] := by
    simp [List.mapM, List.mapM.loop, processLayer, hp, Except.map, Functor.map]
  simp only [displayCmd, hc, hn, hmap]

/-- C2 amended, witnessed at the concrete session of the counterexample. -/
theorem C2_display_amended_witness :
    displayCmd provBare sessC2 ["z", "y", "x"]
      = (.ok (),
         ⟨⟨[⟨"layer0", true, [srcXYZ]⟩], some ["z", "y", "x"], .leaf "xy"⟩,
          some ["z", "y", "x"]⟩,
         [⟨[⟨"layer0", true, [srcXYZ]⟩], some ["x", "y", "z"], .leaf "xy"⟩,
          ⟨[⟨"layer0", true, [srcXYZ]⟩], some ["z", "y", "x"], .leaf "xy"⟩]) :=
  C2_display_amended provBare ⟨["x", "y", "z"]⟩ "local" "layer0"
    (some ["x", "y", "z"]) (some ["x", "y", "z"]) (.leaf "xy") (by decide)

/-! ## Claim C5: display commits in two transactions -/

/-- A local source with native dimensions left, posterior, inferior and no
transform: reorienting it to r, a, s does build a new transform. -/
def srcLPI : Source := ⟨none, some ⟨["left", "posterior", "inferior"]⟩, true, "local"⟩

/-- A session holding one image layer over srcLPI, old order x, y, z. -/
def sessC5 : Session :=
  ⟨⟨[⟨"layer0", true, [srcLPI]⟩], some ["x", "y", "z"], .leaf "xy"⟩, some ["x", "y", "z"]⟩

/-- C5 counterexample: display r, a, s commits two snapshots; in the first
one the source has already received its reorientation transform while
displayDimensions still holds the old order x, y, z; only the second
snapshot updates displayDimensions.  The claim denies that such a committed
intermediate state exists. -/
theorem C5_counterexample :
    (displayCmd provBare sessC5 ["r", "a", "s"]).1 = .ok ()
    ∧ (displayCmd provBare sessC5 ["r", "a", "s"]).2.2.length = 2
    ∧ (firstSourceTransform
        ((displayCmd provBare sessC5 ["r", "a", "s"]).2.2.headD ⟨[], none, .leaf ""⟩)).isSome
        = true
    ∧ ((displayCmd provBare sessC5 ["r", "a", "s"]).2.2.headD ⟨[], none, .leaf ""⟩).displayDimensions
        = some ["x", "y", "z"]
    ∧ (displayCmd provBare sessC5 ["r", "a", "s"]).2.1.state.displayDimensions
        = some ["right", "anterior", "superior"] :=
  ⟨rfl, rfl, rfl, rfl, rfl⟩

/-- C5 amended: the display command is not a single transaction; on success
it commits exactly two snapshots, the first carrying the per-source
transform edits with the old displayDimensions, the second differing from
it only by the new displayDimensions. -/
theorem C5_display_two_txns (provider : String → Source) (sess : Session)
    (dims : List String) (s2 : Session) (cs : List ViewerState)
    (h : displayCmd provider sess dims = (.ok (), s2, cs)) :
    ∃ st1, cs = [st1, s2.state]
      ∧ st1.displayDimensions = sess.state.displayDimensions
      ∧ s2.state = { st1 with displayDimensions := s2.display_dimensions } := by
  unfold displayCmd at h
  rcases hc : canonDims dims with e | dopt <;> rw [hc] at h
  · exact absurd (congrArg Prod.fst h) (by simp)
  · simp only at h
    rcases hdd : (match dopt with
        | some d => some d
        | none => sess.display_dimensions) with _ | ddl <;> rw [hdd] at h
    · exact absurd (congrArg Prod.fst h) (by simp)
    · simp only at h
      rcases hm : sess.state.layers.mapM (processLayer provider (compactNames ddl))
          with e | newLayers <;> rw [hm] at h
      · exact absurd (congrArg Prod.fst h) (by simp)
      · simp only at h
        injection h with ha hbc
        injection hbc with hs2 hcs
        subst hs2
        subst hcs
        exact ⟨_, rfl, rfl, rfl⟩

/-- C5 amended, witnessed at the session of the counterexample. -/
theorem C5_display_two_txns_witness :
    ∃ st1, (displayCmd provBare sessC5 ["r", "a", "s"]).2.2
        = [st1, (displayCmd provBare sessC5 ["r", "a", "s"]).2.1.state]
      ∧ st1.displayDimensions = sessC5.state.displayDimensions
      ∧ (displayCmd provBare sessC5 ["r", "a", "s"]).2.1.state
          = { st1 with displayDimensions :=
                (displayCmd provBare sessC5 ["r", "a", "s"]).2.1.display_dimensions } :=
  C5_display_two_txns provBare sessC5 ["r", "a", "s"] _ _ rfl

/-! ## Claim C6: axis validation of display -/

/-- The token expansion of display (lines 302-303): a single token is split
letter by letter, otherwise the tokens stand as given. -/
def expandDims (dimension : List String) : List String :=
  if dimension.length = 1 then (dimension.headD "").data.map (fun c => String.mk [c])
  else dimension

/-- Lines 306-307: each expanded token resolved case-insensitively through
the alias table, unknown tokens passing through unchanged. -/
def resolveAll (dimension : List String) : List String :=
  (expandDims dimension).map (fun tok => (letter2full (pyLower tok)).getD tok)

lemma canonDims_eq (dimension : List String) (hne : dimension ≠ []) :
    canonDims dimension = if (expandDims dimension).length = 3
      then .ok (some (resolveAll dimension))
      else .error (.valueError "display takes three axis names") := by
  unfold canonDims expandDims resolveAll resolveToken
  rw [show dimension.isEmpty = false by simpa [List.isEmpty_iff] using hne]
  simp only [Bool.false_eq_true, if_false]
  rfl

/-- C6: for a non-empty dimension argument, each token resolves through the
alias table case-insensitively with unknown tokens passed through (this is
resolveAll); when the resolved names do not number exactly three the
command raises a ValueError with no commit and an unchanged session, and
otherwise the stored display order becomes exactly the resolved names. -/
theorem C6_display_axis_validation (provider : String → Source) (sess : Session)
    (dimension : List String) (hne : dimension ≠ []) :
    (¬(resolveAll dimension).length = 3 →
      displayCmd provider sess dimension
        = (.error (.valueError "display takes three axis names"), sess, []))
    ∧ ((resolveAll dimension).length = 3 →
      (displayCmd provider sess dimension).2.1.display_dimensions
        = some (resolveAll dimension)) := by
  have hlen : (resolveAll dimension).length = (expandDims dimension).length :=
    List.length_map _ _
  constructor
  · intro h3
    unfold displayCmd
    rw [canonDims_eq dimension hne, if_neg (fun hx => h3 (hlen.trans hx))]
  · intro h3
    unfold displayCmd
    rw [canonDims_eq dimension hne, if_pos (hlen ▸ h3)]
    simp only
    rcases hm : sess.state.layers.mapM
        (processLayer provider (compactNames (resolveAll dimension))) with e | nl <;>
      simp [hm]

/-- C6 witness: a two-token request errors without touching the session; a
three-token upper-case request stores the case-insensitively resolved full
names. -/
theorem C6_display_axis_validation_witness :
    displayCmd provBare sessC2 ["x", "y"]
      = (.error (.valueError "display takes three axis names"), sessC2, [])
    ∧ (displayCmd provBare sessC2 ["R", "A", "S"]).2.1.display_dimensions
      = some ["right", "anterior", "superior"] :=
  ⟨(C6_display_axis_validation provBare sessC2 ["x", "y"] (by simp)).1 (by decide),
   (C6_display_axis_validation provBare sessC2 ["R", "A", "S"] (by simp)).2 (by decide)⟩

/-! ## Claim C7: bounded reentry of the resolver and graceful skipping -/

/-- C7: for a source carrying no transform and no dimensions, whose remote
description is equally bare, the resolver performs at most one provider
lookup (the hop bound encoded by the reentrant flag), returns unknown
rather than raising, and the display command on a session holding just that
source succeeds, leaving the source untouched and committing both
snapshots. -/
theorem C7_resolver_bounded (provider : String → Source) (s : Source) (nm : String)
    (vdd : Option (List String)) (dd : List String) (lay : LayoutNode)
    (h1 : s.transform = none) (h2 : s.dimensions = none) (h3 : s.isLocalVolume = false)
    (h4 : (provider s.url).transform = none) (h5 : (provider s.url).dimensions = none) :
    getDimensionsLookups provider 1 s ≤ 1
    ∧ getDimensions provider s false = none
    ∧ displayCmd provider ⟨⟨[⟨nm, true, [s]⟩], vdd, lay⟩, some dd⟩ []
      = (.ok (), ⟨⟨[⟨nm, true, [s]⟩], some dd, lay⟩, some dd⟩,
         [⟨[⟨nm, true, [s]⟩], vdd, lay⟩, ⟨[⟨nm, true, [s]⟩], some dd, lay⟩]) := by
  have hgd : getDimensions provider s false = none := by
    simp [getDimensions, getDimensionsFuel, directDims, h1, h2, h3, h4, h5]
  refine ⟨getDimensionsLookups_le provider 1 s, hgd, ?_⟩
  have hgt : getTransform provider s = none := by
    simp [getTransform, h1, h3, h4]
  have hps : processSource provider (compactNames dd) s = .ok s := by
    simp [processSource, hgt, reorientUsingDimensions, hgd]
  have hmap : (List.mapM (processLayer provider (compactNames dd))
      ([⟨nm, true, [s]⟩] : List Layer)) = .ok [⟨nm, true, [s]⟩] := by
    simp [List.mapM, List.mapM.loop, processLayer, hps, Except.map, Functor.map]
  have hc : canonDims [] = .ok none := rfl
  simp only [displayCmd, hc, hmap]

/-- C7 witness: the bare remote source with a bare provider. -/
theorem C7_resolver_bounded_witness :
    getDimensionsLookups provBare 1 ⟨none, none, false, "u"⟩ ≤ 1
    ∧ getDimensions provBare ⟨none, none, false, "u"⟩ false = none
    ∧ displayCmd provBare
        ⟨⟨[⟨"layer0", true, [⟨none, none, false, "u"⟩]⟩], none, .leaf "xy"⟩,
          some ["x", "y", "z"]⟩ []
      = (.ok (),
         ⟨⟨[⟨"layer0", true, [⟨none, none, false, "u"⟩]⟩], some ["x", "y", "z"], .leaf "xy"⟩,
          some ["x", "y", "z"]⟩,
         [⟨[⟨"layer0", true, [⟨none, none, false, "u"⟩]⟩], none, .leaf "xy"⟩,
          ⟨[⟨"layer0", true, [⟨none, none, false, "u"⟩]⟩], some ["x", "y", "z"], .leaf "xy"⟩]) :=
  C7_resolver_bounded provBare ⟨none, none, false, "u"⟩ "layer0" none ["x", "y", "z"]
    (.leaf "xy") rfl rfl rfl rfl rfl

/-! ## The transform command -/

/-- The matrix-preparation block of transform (lines 529-548) for a numeric
flat input: reshape per reshapeFlat, square via to_square, invert when
requested (LinAlgError on a singular matrix), then drop the homogeneous
bottom row.  A one-element input collapses to a 0-dimensional scalar in the
source and is rejected by the external to_square; string inputs go through
the external transform-file loader and are out of scope here. -/
def prepMatrix (tlist : List ℚ) (inv : Bool) : Except Err (List (List ℚ)) :=
  if tlist.length = 1 then .error (.valueError "scalar transform")
  else
    match reshapeFlat tlist with
    | none => .error (.valueError "cannot reshape")
    | some m =>
      let m2 := to_square m
      if inv then
        match npinv m2 with
        | none => .error (.linAlgError "Singular matrix")
        | some mi => .ok mi.dropLast
      else .ok m2.dropLast

/-- composeTransform (lines 586-599): rebuild the existing transform over
its own input and output and compose the new affine on top. -/
def composeTransformS (provider : String → Source) (t : Transform) (source : Source) :
    Except Err Source :=
  match getTransform provider source with
  | none => .error (.attributeError "matrix")
  | some tr =>
    let idims := getDimensions provider source false
    let matrix := tr.matrix.getD (eye 4)
    .ok { source with transform := some (compose t ⟨some matrix, idims, tr.outputDimensions⟩) }

/-- applyTransform (lines 601-610): apply the new affine over the identity
on the native dimensions; skip the source when they are unknown. -/
def applyTransformS (provider : String → Source) (t : Transform) (source : Source) :
    Except Err Source :=
  match getDimensions provider source false with
  | none => .ok source
  | some idims =>
    .ok { source with transform := some (compose t ⟨none, some idims, some idims⟩) }

/-- The per-source step of the transform transaction (lines 618-622). -/
def transformSource (provider : String → Source) (t : Transform) (source : Source) :
    Except Err Source :=
  if (getTransform provider source).isSome then composeTransformS provider t source
  else applyTransformS provider t source

/-- The per-layer step of the transform transaction (lines 613-622): layers
filtered by name when a selection is given; only image layers touched. -/
def transformLayer (provider : String → Source) (t : Transform) (layerNames : List String)
    (l : Layer) : Except Err Layer :=
  if ¬layerNames.isEmpty ∧ ¬layerNames.contains l.name then .ok l
  else if l.isImage then
    (l.sources.mapM (transformSource provider t)).map (fun ss => { l with sources := ss })
  else .ok l

/-- The canonical RAS coordinate space of the prepared affine
(lines 551-563). -/
def rasSpace : CoordinateSpace := ⟨["right", "anterior", "superior"]⟩

/-- The tail of the transform command after the preliminary display on ras
succeeded: matrix preparation, per-source application in one transaction,
then the restoring display on the saved order.  dd0 is the saved
self.display_dimensions captured before the ras switch. -/
def transformAfterDisplay (provider : String → Source) (s1 : Session) (cs1 : List ViewerState)
    (tlist : List ℚ) (layerNames : List String) (inv : Bool) (dd0 : Option (List String)) :
    Except Err Unit × Session × List ViewerState :=
  match prepMatrix tlist inv with
  | .error e => (.error e, s1, cs1)
  | .ok mat =>
    let t : Transform := ⟨some mat, some rasSpace, some rasSpace⟩
    match s1.state.layers.mapM (transformLayer provider t layerNames) with
    | .error e => (.error e, s1, cs1)
    | .ok newLayers =>
      let st2 := { s1.state with layers := newLayers }
      match displayCmd provider ⟨st2, s1.display_dimensions⟩ (dd0.getD []) with
      | (.error e, s3, cs3) => (.error e, s3, cs1 ++ [st2] ++ cs3)
      | (.ok _, s3, cs3) => (.ok (), s3, cs1 ++ [st2] ++ cs3)

/-- The transform command (lines 500-624) for a numeric flat matrix: save
the display order, switch the display to ras, prepare the matrix, apply it
to the selected layers in one transaction, and restore the display order.
An exception part-way through leaves whatever was already committed. -/
def transformCmd (provider : String → Source) (sess : Session) (tlist : List ℚ)
    (layerNames : List String) (inv : Bool) :
    Except Err Unit × Session × List ViewerState :=
  match displayCmd provider sess ["ras"] with
  | (.error e, s1, cs1) => (.error e, s1, cs1)
  | (.ok _, s1, cs1) =>
    transformAfterDisplay provider s1 cs1 tlist layerNames inv sess.display_dimensions

/-! ## Claim C4: singular inversion aborts but is not atomic -/

/-- A session with no layers, display order x, y, z. -/
def sessC4 : Session := ⟨⟨[], some ["x", "y", "z"], .leaf "xy"⟩, some ["x", "y", "z"]⟩

lemma detFuel_cons_zero (f : Nat) (rest : List (List ℚ)) :
    detFuel (f + 1) (([0, 0, 0, 0] : List ℚ) :: rest) = 0 := by
  simp only [detFuel]
  norm_num [List.range_succ, List.getD, List.get?]

lemma det_zero4 : det (List.replicate 4 (List.replicate 4 (0 : ℚ))) = 0 :=
  detFuel_cons_zero 3 _

lemma prepMatrix_zero16 :
    prepMatrix (List.replicate 16 (0 : ℚ)) true = .error (.linAlgError "Singular matrix") := by
  have hr : reshapeFlat (List.replicate 16 (0 : ℚ))
      = some (List.replicate 4 (List.replicate 4 (0 : ℚ))) := by decide
  have hsq : to_square (List.replicate 4 (List.replicate 4 (0 : ℚ)))
      = List.replicate 4 (List.replicate 4 (0 : ℚ)) := by decide
  have hinv : npinv (List.replicate 4 (List.replicate 4 (0 : ℚ))) = none := by
    unfold npinv
    rw [det_zero4]
    simp
  unfold prepMatrix
  rw [if_neg (by decide : ¬(List.replicate 16 (0 : ℚ)).length = 1), hr]
  simp only [hsq, hinv]
  simp

/-- C4 counterexample: asking transform to invert the singular zero matrix
raises the numeric error, yet displayDimensions has been committed as
right, anterior, superior by the preliminary display on ras and is not
restored, so the viewer state is not the same as before the failed
command. -/
theorem C4_counterexample :
    (transformCmd provBare sessC4 (List.replicate 16 (0 : ℚ)) [] true).1
      = .error (.linAlgError "Singular matrix")
    ∧ (transformCmd provBare sessC4 (List.replicate 16 (0 : ℚ)) [] true).2.1.state.displayDimensions
      = some ["right", "anterior", "superior"]
    ∧ sessC4.state.displayDimensions = some ["x", "y", "z"] := by
  have hd : displayCmd provBare sessC4 ["ras"]
      = (.ok (), ⟨⟨[], some ["right", "anterior", "superior"], .leaf "xy"⟩,
           some ["right", "anterior", "superior"]⟩,
         [⟨[], some ["x", "y", "z"], .leaf "xy"⟩,
          ⟨[], some ["right", "anterior", "superior"], .leaf "xy"⟩]) := rfl
  have ht : transformCmd provBare sessC4 (List.replicate 16 (0 : ℚ)) [] true
      = (.error (.linAlgError "Singular matrix"),
         ⟨⟨[], some ["right", "anterior", "superior"], .leaf "xy"⟩,
           some ["right", "anterior", "superior"]⟩,
         [⟨[], some ["x", "y", "z"], .leaf "xy"⟩,
          ⟨[], some ["right", "anterior", "superior"], .leaf "xy"⟩]) := by
    unfold transformCmd
    rw [hd]
    simp only
    unfold transformAfterDisplay
    rw [prepMatrix_zero16]
  exact ⟨by rw [ht], by rw [ht], rfl⟩

/-- C4 amended: when the preliminary display on ras succeeds and the matrix
preparation fails (in particular by inverting a singular matrix), the
transform command surfaces the error, no source receives the new affine,
and the session and committed snapshots are exactly those left by the
preliminary display on ras — displayDimensions is not restored. -/
theorem C4_transform_singular (provider : String → Source) (sess : Session)
    (tlist : List ℚ) (layerNames : List String) (s1 : Session) (cs1 : List ViewerState)
    (e : Err) (hd : displayCmd provider sess ["ras"] = (.ok (), s1, cs1))
    (hp : prepMatrix tlist true = .error e) :
    transformCmd provider sess tlist layerNames true = (.error e, s1, cs1) := by
  unfold transformCmd
  rw [hd]
  simp only
  unfold transformAfterDisplay
  rw [hp]

/-- C4 amended, witnessed at the singular zero matrix on the empty-layer
session. -/
theorem C4_transform_singular_witness :
    transformCmd provBare sessC4 (List.replicate 16 (0 : ℚ)) [] true
      = (.error (.linAlgError "Singular matrix"),
         ⟨⟨[], some ["right", "anterior", "superior"], .leaf "xy"⟩,
           some ["right", "anterior", "superior"]⟩,
         [⟨[], some ["x", "y", "z"], .leaf "xy"⟩,
          ⟨[], some ["right", "anterior", "superior"], .leaf "xy"⟩]) :=
  C4_transform_singular provBare sessC4 (List.replicate 16 (0 : ℚ)) [] _ _ _
    rfl prepMatrix_zero16

/-! ## The layout command -/

/-- Python truthiness of the layout variable: an empty list and an empty
string are falsy, every other value truthy. -/
def pyTruthyNode : LayoutNode → Bool
  | .pylist l => ¬l.isEmpty
  | .leaf k => k ≠ ""
  | _ => true

/-- isinstance(layout, ng.LayerGroupViewer). -/
def isLGV : LayoutNode → Bool
  | .group _ _ _ => true
  | _ => false

/-- Python list indexing with negative indices; none is an IndexError. -/
def pyIndex {α : Type} (l : List α) (i : Int) : Option α :=
  let j : Int := if i < 0 then i + l.length else i
  if 0 ≤ j ∧ j < l.length then l.get? j.toNat else none

/-- Python list.insert(i, x): the index is clamped, never an error. -/
def pyInsert {α : Type} (l : List α) (i : Int) (x : α) : List α :=
  let j : Int := if i < 0 then max 0 (i + l.length) else min i l.length
  l.take j.toNat ++ [x] ++ l.drop j.toNat

/-- Python del l[i]: delete at the (negative-adjusted) index, IndexError
when out of range. -/
def pyDelete {α : Type} (l : List α) (i : Int) : Option (List α) :=
  let j : Int := if i < 0 then i + l.length else i
  if 0 ≤ j ∧ j < l.length then some (l.eraseIdx j.toNat) else none

/-- One step of the path walk at line 804.  The source reads
layout.children with index i: the freshly built layout value is indexed,
not the tree being edited; on anything but a StackLayout this is an
AttributeError. -/
def childOfNew (v : LayoutNode) (i : Int) : Except Err LayoutNode :=
  match v with
  | .stack _ cs =>
    match pyIndex cs i with
    | some c => .ok c
    | none => .error (.indexError "list index out of range")
  | _ => .error (.attributeError "children")

/-- The while loop of lines 803-804: every iteration rebinds parent to
layout.children at the next index — always indexing the same new layout
value — so the last successful step is the resulting parent. -/
def walkLast (v : LayoutNode) : List Int → Except Err LayoutNode
  | [] => .error (.valueError "empty path")
  | [i] => childOfNew v i
  | i :: rest =>
    match childOfNew v i with
    | .error e => .error e
    | .ok _ => walkLast v rest

/-- Python truthiness of the insert and remove variables after the pops:
False (none here) and the integer 0 are falsy. -/
def pyTruthyInt (o : Option Int) : Bool :=
  match o with
  | some i => i ≠ 0
  | none => false

/-- Lines 805-815: when the new layout value is truthy and not already a
LayerGroupViewer, infer the layer scope — from the last child of parent
when the explicit set is empty and parent has children, else from all
current layer names — and wrap the value in a LayerGroupViewer.  Reading
parent.children of a non-stack parent is an AttributeError; reading .layers
of a non-group child likewise. -/
def inferAndWrap (st : ViewerState) (layerV : List String) (flex : ℚ)
    (parentNode : LayoutNode) (v : LayoutNode) : Except Err LayoutNode :=
  if pyTruthyNode v = true ∧ isLGV v = false then
    match (if layerV.isEmpty then
             match parentNode with
             | .stack _ cs =>
               if cs.isEmpty then .ok (st.layers.map (fun l => l.name))
               else
                 match cs.getLast? with
                 | some (.group ls _ _) => .ok ls
                 | _ => .error (.attributeError "layers")
             | _ => .error (.attributeError "children")
           else (.ok layerV : Except Err (List String))) with
    | .error e => .error e
    | .ok ls => .ok (.group ls v flex)
  else .ok v

/-- Lines 816-821 when parent is the root of the state tree: the mutation
really edits the committed layout. -/
def rootEdit (st : ViewerState) (doAppend : Bool) (insertV removeV : Option Int)
    (v : LayoutNode) : Except Err ViewerState :=
  if doAppend then
    match st.layout with
    | .stack d cs => .ok { st with layout := .stack d (cs ++ [v]) }
    | _ => .error (.attributeError "children")
  else if pyTruthyInt insertV then
    match st.layout with
    | .stack d cs => .ok { st with layout := .stack d (pyInsert cs (insertV.getD 0) v) }
    | _ => .error (.attributeError "children")
  else if pyTruthyInt removeV then
    match st.layout with
    | .stack d cs =>
      match pyDelete cs (removeV.getD 0) with
      | some cs2 => .ok { st with layout := .stack d cs2 }
      | none => .error (.indexError "list index out of range")
    | _ => .error (.attributeError "children")
  else .ok st

/-- Lines 816-821 when parent came out of the walk: parent is then a child
of the freshly built layout value, so a successful mutation edits a value
that is discarded and the committed tree is unchanged; the error behaviour
is that of list mutation on the walked node. -/
def detachedEdit (parentNode : LayoutNode) (doAppend : Bool) (insertV removeV : Option Int) :
    Except Err Unit :=
  if doAppend ∨ pyTruthyInt insertV then
    match parentNode with
    | .stack _ _ => .ok ()
    | _ => .error (.attributeError "children")
  else if pyTruthyInt removeV then
    match parentNode with
    | .stack _ cs =>
      if (pyDelete cs (removeV.getD 0)).isSome then .ok ()
      else .error (.indexError "list index out of range")
    | _ => .error (.attributeError "children")
  else .ok ()

/-- The layout command (lines 706-824).  Arguments mirror argparse: the
list of layout names, the optional stack direction, the explicit layer
set, flex, and the optional integer paths of append, insert and remove.
Returns the layout echoed by the command and the resulting state; an
exception aborts the transaction, leaving the state unchanged. -/
def layoutCmd (st : ViewerState) (layoutArg : List String) (stackArg : Option String)
    (layerArg : List String) (flex : ℚ)
    (appendArg insertArg removeArg : Option (List Int)) :
    Except Err LayoutNode × ViewerState :=
  if layoutArg.isEmpty ∧ removeArg = none then (.ok st.layout, st)
  else
    let layout1 : List LayoutNode := layoutArg.map .leaf
    let layer1 : List String :=
      if (1 < layout1.length ∨ stackArg.isSome) ∧ layerArg.isEmpty
        then st.layers.map (fun l => l.name) else layerArg
    let layout2 : List LayoutNode :=
      if layer1.isEmpty then layout1 else layout1.map (fun L => .group layer1 L flex)
    let stack2 : Option String :=
      if 1 < layout2.length ∧ stackArg = none then some "row" else stackArg
    let v : LayoutNode :=
      match stack2 with
      | none => if layout2.length = 1 then layout2.headD (.pylist []) else .pylist layout2
      | some d => .stack d layout2
    let doAppend := appendArg.isSome
    let indices0 : List Int := appendArg.getD []
    let pr1 : List Int × Option Int :=
      match insertArg with
      | some l => if l.isEmpty then (indices0, none) else (l.dropLast, some (l.getLastD 0))
      | none => (indices0, none)
    let pr2 : List Int × Option Int :=
      match removeArg with
      | some l => if l.isEmpty then (pr1.1, none) else (l.dropLast, some (l.getLastD 0))
      | none => (pr1.1, none)
    let indices2 := pr2.1
    let insertV := pr1.2
    let removeV := pr2.2
    let nTrue := (if doAppend then 1 else 0) + (if pyTruthyInt insertV then 1 else 0)
      + (if pyTruthyInt removeV then 1 else 0)
    if 1 < nTrue then (.error (.valueError "Cannot use both append and insert"), st)
    else if pyTruthyNode v = true ∧ pyTruthyInt removeV = true then
      (.error (.valueError "Do not set layout and remove"), st)
    else if doAppend ∨ insertV.isSome ∨ removeV.isSome then
      match (match indices2 with
             | [] => (.ok none : Except Err (Option LayoutNode))
             | is => (walkLast v is).map some) with
      | .error e => (.error e, st)
      | .ok pOpt =>
        match inferAndWrap st layer1 flex (pOpt.getD st.layout) v with
        | .error e => (.error e, st)
        | .ok v2 =>
          match pOpt with
          | none =>
            match rootEdit st doAppend insertV removeV v2 with
            | .error e => (.error e, st)
            | .ok st2 => (.ok st2.layout, st2)
          | some pn =>
            match detachedEdit pn doAppend insertV removeV with
            | .error e => (.error e, st)
            | .ok _ => (.ok st.layout, st)
    else
      let st2 := { st with layout := v }
      (.ok st2.layout, st2)

/-! ## Claim C3: the path walk reads the new layout, not the tree -/

/-- A state whose root layout is a two-child row stack. -/
def stStackC3 : ViewerState :=
  ⟨[], some ["x", "y", "z"], .stack "row" [.leaf "xy", .leaf "yz"]⟩

/-- A state whose root layout is a single leaf view. -/
def stLeafC3 : ViewerState := ⟨[], some ["x", "y", "z"], .leaf "xy"⟩

/-- C3, the code at the failing input: appending at path 0 fails with an
AttributeError and leaves the tree unchanged even when the root is a
two-child StackLayout and index 0 is in range — because line 804 walks
layout.children, the children of the freshly built leaf value, instead of
parent.children in the existing tree.  The second conjunct shows the
leaf-root case of the claim errors the same way for the same reason. -/
theorem C3_layout_walk_bug :
    layoutCmd stStackC3 ["xz"] none [] 1 (some [(0 : Int)]) none none
      = (.error (.attributeError "children"), stStackC3)
    ∧ layoutCmd stLeafC3 ["xy"] none [] 1 (some [(0 : Int)]) none none
      = (.error (.attributeError "children"), stLeafC3) :=
  ⟨rfl, rfl⟩

/-! ## The unload command -/

/-- del state.layers[name]: remove the first layer with that name; a
missing name raises, modelled by none. -/
def delLayer (name : String) : List Layer → Option (List Layer)
  | [] => none
  | l :: rest =>
    if l.name = name then some rest
    else (delLayer name rest).map (fun r => l :: r)

/-- The deletion loop of unload (lines 496-498). -/
def delAll : List String → List Layer → Option (List Layer)
  | [], ls => some ls
  | n :: ns, ls => (delLayer n ls).bind (delAll ns)

/-- The unload command (lines 481-498): with no explicit names, the names
of all current layers are collected and each is deleted. -/
def unloadCmd (sess : Session) (layerArg : List String) : Option Session :=
  let layers := if layerArg.isEmpty then sess.state.layers.map (fun l => l.name) else layerArg
  (delAll layers sess.state.layers).map
    (fun ls => { sess with state := { sess.state with layers := ls } })

lemma delAll_names_self : ∀ ls : List Layer, delAll (ls.map (fun l => l.name)) ls = some [] := by
  intro ls
  induction ls with
  | nil => rfl
  | cons l rest ih =>
    simp only [List.map_cons, delAll, delLayer, if_pos rfl, Option.some_bind]
    exact ih

/-- C9: unload with no layer names deletes every layer of the current
state, leaving the layer list empty; the stored display order is
untouched. -/
theorem C9_unload_all (sess : Session) :
    unloadCmd sess []
      = some ⟨⟨[], sess.state.displayDimensions, sess.state.layout⟩,
          sess.display_dimensions⟩ := by
  unfold unloadCmd
  simp only [List.isEmpty_nil, if_true]
  rw [delAll_names_self sess.state.layers]
  rfl

/-! ## The load command -/

/-- Python truthiness of the optional name argument: None and the empty
string are falsy. -/
def pyTruthyOptStr (n : Option String) : Bool :=
  match n with
  | some s => s ≠ ""
  | none => false

/-- The layer-type protocols of viewer.py. -/
def LAYERTYPES : List String :=
  ["volume", "labels", "surface", "tracts", "roi", "points", "transform", "affine"]

/-- The native neuroglancer formats of viewer.py. -/
def NG_FORMATS : List String :=
  ["boss", "brainmap", "deepzoom", "dvid", "graphene", "local", "n5", "nggraph",
   "nifti", "obj", "precomputed", "render", "vtk", "zarr", "zarr2", "zarr3"]

/-- The extra local formats of viewer.py. -/
def EXTRA_FORMATS : List String :=
  ["mgh", "mgz", "trk", "lta", "surf", "annot", "tck", "mif", "gii", "tiff", "niftyreg"]

/-- startswith on character lists. -/
def pyStartsWith (s p : String) : Bool := p.data.isPrefixOf s.data

/-- Drop the first n characters. -/
def pyDrop (s : String) (n : Nat) : String := String.mk (s.data.drop n)

/-- Split a character list at a separator character. -/
def splitOnChar (c : Char) : List Char → List (List Char)
  | [] => [[]]
  | x :: xs =>
    let r := splitOnChar c xs
    if x = c then [] :: r else (x :: r.headD []) :: r.tail

/-- os.path.basename: the part after the last slash. -/
def pyBasename (s : String) : String := String.mk ((splitOnChar '/' s.data).getLastD [])

/-- parse_filename (lines 902-946): strip a known layer-type protocol, then
a known format protocol, else sniff the format from the file ending. -/
def parse_filename (filename : String) : Option String × Option String × String :=
  let p1 : Option String × String :=
    match LAYERTYPES.find? (fun dt => pyStartsWith filename (dt ++ "://")) with
    | some dt => (some dt, pyDrop filename (dt.length + 3))
    | none => (none, filename)
  let p2 : Option String × String :=
    match (NG_FORMATS ++ EXTRA_FORMATS).find? (fun fmt => pyStartsWith p1.2 (fmt ++ "://")) with
    | some fmt => (some fmt, pyDrop p1.2 (fmt.length + 3))
    | none => (none, p1.2)
  let fmt : Option String :=
    match p2.1 with
    | some f => some f
    | none =>
      let fn := p2.2
      if pyStartsWith (String.mk fn.data.reverse) (String.mk "hgm.".data) then some "mgh"
      else if pyStartsWith (String.mk fn.data.reverse) (String.mk "zgm.".data) then some "mgz"
      else if pyStartsWith (String.mk fn.data.reverse) (String.mk "iin.".data)
          ∨ pyStartsWith (String.mk fn.data.reverse) (String.mk "zg.iin.".data) then some "nifti"
      else if pyStartsWith (String.mk fn.data.reverse) (String.mk "krt.".data) then some "trk"
      else if pyStartsWith (String.mk fn.data.reverse) (String.mk "kct.".data) then some "tck"
      else if pyStartsWith (String.mk fn.data.reverse) (String.mk "atl.".data) then some "lta"
      else if pyStartsWith (String.mk fn.data.reverse) (String.mk "fim.".data) then some "mif"
      else if pyStartsWith (String.mk fn.data.reverse) (String.mk "ffit.".data)
          ∨ pyStartsWith (String.mk fn.data.reverse) (String.mk "fit.".data) then some "tiff"
      else if pyStartsWith (String.mk fn.data.reverse) (String.mk "iig.".data) then some "gii"
      else if pyStartsWith (String.mk fn.data.reverse) (String.mk "rraz.".data)
          ∨ pyStartsWith (String.mk fn.data.reverse) (String.mk "/rraz.".data) then some "zarr"
      else if pyStartsWith (String.mk fn.data.reverse) (String.mk "ktv.".data) then some "vtk"
      else if pyStartsWith (String.mk fn.data.reverse) (String.mk "jbo.".data) then some "obj"
      else if pyStartsWith (String.mk fn.data.reverse) (String.mk "5n.".data)
          ∨ pyStartsWith (String.mk fn.data.reverse) (String.mk "/5n.".data) then some "n5"
      else none
  (p1.1, fmt, p2.2)

/-- The per-file loop of load (lines 423-475): parse each filename, build
its source through the external loader oracle (remote and local source
construction, quantile probing and shader controls are external
collaborators), and append the named image layer in its own transaction.
Returns the outcome, the final state, and the committed snapshots. -/
def loadLoop (mkSource : Option String → Option String → String → Except Err Source)
    (name0 : Option String) : List String → ViewerState →
    Except Err Unit × ViewerState × List ViewerState
  | [], st => (.ok (), st, [])
  | fn :: rest, st =>
    let parsed := parse_filename fn
    let nm := match name0 with
      | some s => if s = "" then pyBasename parsed.2.2 else s
      | none => pyBasename parsed.2.2
    match parsed.2.1 with
    | none => (.error (.valueError "Unrecognized format"), st, [])
    | some f =>
      if NG_FORMATS.contains f ∨ EXTRA_FORMATS.contains f then
        match mkSource parsed.1 (some f) parsed.2.2 with
        | .error e => (.error e, st, [])
        | .ok src =>
          let st2 := { st with layers := st.layers ++ [⟨nm, true, [src]⟩] }
          let rec2 := loadLoop mkSource name0 rest st2
          (rec2.1, rec2.2.1, st2 :: rec2.2.2)
      else (.error (.valueError "Unrecognized format"), st, [])

/-- The load command (lines 400-479): a single name may not cover several
files (ValueError before anything happens); otherwise the display order is
saved, reset to None via redisplay, the files are loaded, an optional
transform argument is forwarded — with a keyword the method does not
accept, a TypeError in the source — and the display order is restored. -/
def loadCmd (mkSource : Option String → Option String → String → Except Err Source)
    (sess : Session) (filenames : List String) (name : Option String)
    (tr : Option (List ℚ)) : Except Err Unit × Session × List ViewerState :=
  if pyTruthyOptStr name = true ∧ 1 < filenames.length then
    (.error (.valueError "Cannot give a single name to multiple layers"), sess, [])
  else
    let dd := sess.display_dimensions
    let s1c := redisplayCmd sess (some none)
    let lr := loadLoop mkSource name filenames s1c.1.state
    match lr.1 with
    | .error e => (.error e, ⟨lr.2.1, none⟩, s1c.2 :: lr.2.2)
    | .ok _ =>
      match tr with
      | some _ =>
        (.error (.typeError "transform got an unexpected keyword argument"),
         ⟨lr.2.1, none⟩, s1c.2 :: lr.2.2)
      | none =>
        let s3c := redisplayCmd ⟨lr.2.1, none⟩ (some dd)
        (.ok (), s3c.1, s1c.2 :: lr.2.2 ++ [s3c.2])

/-- C10: load with a truthy name and more than one filename raises the
ValueError before any layer is appended or the display order touched: the
session is returned unchanged and no snapshot is committed. -/
theorem C10_load_name_guard
    (mkSource : Option String → Option String → String → Except Err Source)
    (sess : Session) (filenames : List String) (name : Option String)
    (tr : Option (List ℚ)) (hn : pyTruthyOptStr name = true)
    (hlen : 1 < filenames.length) :
    loadCmd mkSource sess filenames name tr
      = (.error (.valueError "Cannot give a single name to multiple layers"), sess, []) := by
  unfold loadCmd
  rw [if_pos ⟨hn, hlen⟩]

/-- C10 witness: two filenames with an explicit name on a concrete
session. -/
theorem C10_load_name_guard_witness :
    loadCmd (fun _ _ _ => .error (.valueError "unused")) sessC2 ["a.nii", "b.nii"]
        (some "n") none
      = (.error (.valueError "Cannot give a single name to multiple layers"), sessC2, []) :=
  C10_load_name_guard (fun _ _ _ => .error (.valueError "unused")) sessC2
    ["a.nii", "b.nii"] (some "n") none (by decide) (by decide)

/-! ## The state command, load branch -/

/-- The load branch of the state command (lines 674-688).  Oracles stand
for the external collaborators: fileExists for os.path.exists, fileContent
for reading an existing file, parseJson for json.load with none on invalid
content, jsonToState for installing a decoded state, and protocols for the
remote-protocol prefixes of the external opener module.  The source, on a
load string that is neither an existing file nor protocol-prefixed, tests
the boolean flag url where the string load was meant: the membership test
on the boolean is a TypeError, and so is json.loads of the boolean in the
final branch, so the fragment-parsing path is unreachable. -/
def stateLoadCmd (fileExists : String → Bool) (fileContent : String → String)
    (parseJson : String → Option String) (jsonToState : String → ViewerState)
    (protocols : List String) (sess : Session) (load : Option String) (url : Bool) :
    Except Err Unit × Session :=
  match load with
  | none => (.ok (), sess)
  | some l =>
    if l = "" then (.ok (), sess)
    else if fileExists l ∨ protocols.any (fun p => pyStartsWith l p) then
      if fileExists l then
        match parseJson (fileContent l) with
        | some j => (.ok (), { sess with state := jsonToState j })
        | none => (.error (.valueError "invalid json"), sess)
      else (.error (.fileNotFoundError l), sess)
    else if url then
      (.error (.typeError "argument of type bool is not iterable"), sess)
    else
      (.error (.typeError "the JSON object must be str, not bool"), sess)

/-- The neuroglancer-demo URL with a percent-encoded JSON fragment behind
the exclamation marker, the shape the claim says is decoded and
installed. -/
def c8url : String :=
  "https://neuroglancer-demo.appspot.com/#!%7B%22layers%22%3A%5B%5D%7D"

/-- C8, the code at the failing input: loading the state from a URL with
the url flag set never parses the fragment.  Whatever the external
remote-protocol list is, when the URL names no existing file the command
either tries to open the URL as a local file (FileNotFoundError) or
evaluates the membership test on the boolean url flag (TypeError, since
lines 679-686 use url where load was meant); the session is unchanged and
no state is installed. -/
theorem C8_state_url_bug (fileContent : String → String)
    (parseJson : String → Option String) (jsonToState : String → ViewerState)
    (protocols : List String) (sess : Session) :
    ((stateLoadCmd (fun _ => false) fileContent parseJson jsonToState protocols sess
        (some c8url) true).1 = .error (.fileNotFoundError c8url)
      ∨ (stateLoadCmd (fun _ => false) fileContent parseJson jsonToState protocols sess
        (some c8url) true).1 = .error (.typeError "argument of type bool is not iterable"))
    ∧ (stateLoadCmd (fun _ => false) fileContent parseJson jsonToState protocols sess
        (some c8url) true).2 = sess := by
  unfold stateLoadCmd
  simp only
  rw [if_neg (by decide : ¬c8url = "")]
  by_cases hp : protocols.any (fun p => pyStartsWith c8url p)
  · rw [if_pos (by simp [hp])]
    simp
  · rw [if_neg (by simp [hp])]
    simp

/-- C8 witness: concrete oracles with no existing files and an empty
protocol list. -/
theorem C8_state_url_bug_witness :
    ((stateLoadCmd (fun _ => false) (fun _ => "") (fun _ => none)
        (fun _ => ⟨[], none, .leaf "xy"⟩) [] sessC2 (some c8url) true).1
        = .error (.fileNotFoundError c8url)
      ∨ (stateLoadCmd (fun _ => false) (fun _ => "") (fun _ => none)
        (fun _ => ⟨[], none, .leaf "xy"⟩) [] sessC2 (some c8url) true).1
        = .error (.typeError "argument of type bool is not iterable"))
    ∧ (stateLoadCmd (fun _ => false) (fun _ => "") (fun _ => none)
        (fun _ => ⟨[], none, .leaf "xy"⟩) [] sessC2 (some c8url) true).2 = sessC2 :=
  C8_state_url_bug (fun _ => "") (fun _ => none) (fun _ => ⟨[], none, .leaf "xy"⟩) [] sessC2

end NgViewer
